import Mathlib

/-!
Shallow embedding of `exoquic-auth` (`src/src/index.js`): a thin client that
exchanges an API key plus subscription parameters for a subscription token via
one HTTP POST, plus a module-level singleton wrapper.

The module exports:
* `initSubscriptionAuthorizer` — stores a fresh `ExoquicSubscriptionAuthorizer`
  in the module-level variable `exoquicAuth`;
* `authorizeSubscription` — applies defaults and forwards to the stored instance;
* class `ExoquicSubscriptionAuthorizer` with `constructor` and `authorize`;
* class `ExoquicError` carrying `message` and `statusCode`.

The network is modelled as an oracle (`FetchOutcome`) supplied to each call:
either a response (status code plus body text) or a thrown transport error.
`Date.now` is modelled by passing the invocation-time clock (`now`, already
floored to unix seconds) as an argument.
-/

deriving instance DecidableEq for Except

namespace Exoquic

/-- A JSON value as produced by `JSON.stringify` on the request payload:
the payload fields are strings (`topic`, `channel`, `subscriptionId`,
`resetFrom`) or a number (`expiresAt`). -/
inductive Json where
  | str (s : String)
  | num (n : Int)
deriving DecidableEq, Repr

/-- The state of an `ExoquicSubscriptionAuthorizer` instance after a successful
construction: `this.apiKey` and `this.serverUrl` (src/src/index.js lines 64-67).
Immutable after construction. -/
structure Authorizer where
  apiKey : String
  serverUrl : String
deriving DecidableEq, Repr

/-- A synchronous JavaScript error (not an `ExoquicError`): a `ReferenceError`
on evaluating an undeclared identifier, or a `TypeError` on reading a property
of `undefined`. -/
inductive JsError where
  | referenceError (ident : String)
  | typeError (message : String)
deriving DecidableEq, Repr

/-- Embeds the constructor
`constructor(apiKey, { serverUrl = ``https://${defaultEnvironment}.exoquic.com`` })`
(src/src/index.js line 64).  The identifier `defaultEnvironment` is never
declared anywhere in the module (and the file has no imports), so when the
`serverUrl` option is omitted the default expression is evaluated and throws
`ReferenceError: defaultEnvironment is not defined`; when `serverUrl` is
supplied, the default is not evaluated and construction succeeds. -/
def mkAuthorizer (apiKey : String) (serverUrl : Option String) : Except JsError Authorizer :=
  match serverUrl with
  | some u => Except.ok { apiKey := apiKey, serverUrl := u }
  | none => Except.error (JsError.referenceError "defaultEnvironment")

/-- The parameter object received by `ExoquicSubscriptionAuthorizer.authorize`
(destructured as `{ topic, channel, subscriptionId, resetFrom, expiresAt }`,
src/src/index.js line 83).  Each field is `none` when the caller left the
corresponding property `undefined`; `authorize` itself applies no defaults. -/
structure AuthorizeParams where
  topic : Option String
  channel : Option String
  subscriptionId : Option String
  resetFrom : Option String
  expiresAt : Option Int
deriving DecidableEq, Repr

/-- `JSON.stringify({ topic, channel, subscriptionId, resetFrom, expiresAt })`
(src/src/index.js lines 92-98) viewed as the resulting key/value list:
`JSON.stringify` drops every property whose value is `undefined`, and keeps
the source's key order. -/
def serializeBody (p : AuthorizeParams) : List (String × Json) :=
  (p.topic.map fun t => ("topic", Json.str t)).toList ++
  (p.channel.map fun c => ("channel", Json.str c)).toList ++
  (p.subscriptionId.map fun s => ("subscriptionId", Json.str s)).toList ++
  (p.resetFrom.map fun r => ("resetFrom", Json.str r)).toList ++
  (p.expiresAt.map fun e => ("expiresAt", Json.num e)).toList

/-- The single outbound HTTP request issued by `authorize`: method, URL,
header list, and the request body's parsed JSON (as a key/value list). -/
structure Request where
  method : String
  url : String
  headers : List (String × String)
  body : List (String × Json)
deriving DecidableEq, Repr

/-- The `fetch(...)` call of `authorize` (src/src/index.js lines 85-98):
`POST` to `${this.serverUrl}/authorize-subscription` with exactly the headers
`Content-Type: application/json` and `x-api-key: <apiKey>`, body as serialized
by `serializeBody`. -/
def buildRequest (a : Authorizer) (p : AuthorizeParams) : Request :=
  { method := "POST"
    url := a.serverUrl ++ "/authorize-subscription"
    headers := [("Content-Type", "application/json"), ("x-api-key", a.apiKey)]
    body := serializeBody p }

/-- What the environment does with the single `fetch` call: either a response
arrives (status code and body text, the latter read by `response.text()`), or
the transport throws an error whose `.message` is `message`. -/
inductive FetchOutcome where
  | response (status : Nat) (bodyText : String)
  | fetchThrow (message : String)
deriving DecidableEq, Repr

/-- `Response.ok` per the fetch standard: status in the inclusive range
200..299.  `authorize` branches on exactly this flag. -/
def responseOk (status : Nat) : Bool :=
  200 ≤ status && status < 300

/-- The `ExoquicError` class (src/src/index.js lines 120-125): a `message`
(via `super(message)`) and a numeric `statusCode`. -/
structure ExoquicError where
  message : String
  statusCode : Nat
deriving DecidableEq, Repr

/-- A value thrown inside the `try` block of `authorize`: either an
`ExoquicError` (thrown by the non-ok branch) or an ordinary JS `Error`
(thrown by `fetch` itself), distinguished by `instanceof ExoquicError`
in the `catch` block. -/
inductive Thrown where
  | exoquic (e : ExoquicError)
  | jsErr (message : String)
deriving DecidableEq, Repr

/-- The `try` block of `authorize` (src/src/index.js lines 84-106): await the
fetch (propagating a transport throw), read the body text, and either throw
`new ExoquicError("Failed to authorize subscription: " + content, response.status)`
when `!response.ok`, or return the body text verbatim. -/
def tryBlock (outcome : FetchOutcome) : Except Thrown String :=
  match outcome with
  | FetchOutcome.fetchThrow m => Except.error (Thrown.jsErr m)
  | FetchOutcome.response status bodyText =>
    if !responseOk status then
      Except.error (Thrown.exoquic
        { message := "Failed to authorize subscription: " ++ bodyText
          statusCode := status })
    else
      Except.ok bodyText

/-- The `catch` block of `authorize` (src/src/index.js lines 108-113): an
`ExoquicError` is re-thrown unchanged; anything else is wrapped as
`new ExoquicError("Failed to authorize subscription: " + error.message, 500)`. -/
def catchBlock (e : Thrown) : ExoquicError :=
  match e with
  | Thrown.exoquic err => err
  | Thrown.jsErr m =>
    { message := "Failed to authorize subscription: " ++ m, statusCode := 500 }

/-- One complete run of `authorize`: the request it issued and the settled
promise — `Except.ok token` for resolution, `Except.error e` for rejection
with an `ExoquicError`. -/
structure AuthorizeRun where
  req : Request
  result : Except ExoquicError String
deriving DecidableEq, Repr

/-- `ExoquicSubscriptionAuthorizer.authorize` (src/src/index.js lines 83-114):
issue the request built by `buildRequest`, then run the `try`/`catch`
structure of the source on the fetch outcome. -/
def authorize (a : Authorizer) (p : AuthorizeParams) (outcome : FetchOutcome) : AuthorizeRun :=
  { req := buildRequest a p
    result :=
      match tryBlock outcome with
      | Except.ok token => Except.ok token
      | Except.error e => Except.error (catchBlock e) }

/-- The options object of `initSubscriptionAuthorizer`
(`{ apiKey, env = "dev", serverUrl = ``https://${env}.exoquic.com`` }`,
src/src/index.js line 13); `none` marks an omitted property. -/
structure InitOptions where
  apiKey : String
  env : Option String
  serverUrl : Option String
deriving DecidableEq, Repr

/-- The destructuring defaults of `initSubscriptionAuthorizer`: `env` defaults
to `"dev"`, `serverUrl` defaults to `https://<env>.exoquic.com`. -/
def resolveInitServerUrl (o : InitOptions) : String :=
  match o.serverUrl with
  | some u => u
  | none => "https://" ++ (o.env.getD "dev") ++ ".exoquic.com"

/-- The `ExoquicSubscriptionAuthorizer` built by `initSubscriptionAuthorizer`
(src/src/index.js line 14): the constructor is always handed a defined
`serverUrl` string, so its own (crashing) default is never evaluated. -/
def initAuthorizer (o : InitOptions) : Except JsError Authorizer :=
  mkAuthorizer o.apiKey (some (resolveInitServerUrl o))

/-- The value `initAuthorizer` always succeeds with. -/
def initAuthorizerValue (o : InitOptions) : Authorizer :=
  { apiKey := o.apiKey, serverUrl := resolveInitServerUrl o }

/-- The options object of `authorizeSubscription`
(src/src/index.js line 52); `none` marks an omitted property. -/
structure SubOptions where
  topic : Option String
  channel : Option String
  subscriptionId : Option String
  resetFrom : Option String
  expiresAt : Option Int
deriving DecidableEq, Repr

/-- The destructuring defaults of `authorizeSubscription`
(src/src/index.js line 52): `resetFrom = "earliest"` and
`expiresAt = Math.floor(Date.now() / 1000) + 2 * 60`, where `now` is the
invocation-time clock in whole unix seconds.  The defaulted object is what is
forwarded to `exoquicAuth.authorize`. -/
def applyDefaults (o : SubOptions) (now : Int) : AuthorizeParams :=
  { topic := o.topic
    channel := o.channel
    subscriptionId := o.subscriptionId
    resetFrom := some (o.resetFrom.getD "earliest")
    expiresAt := some (o.expiresAt.getD (now + 2 * 60)) }

/-- `authorizeSubscription` (src/src/index.js lines 52-54) against the current
singleton state `st` (the module variable `exoquicAuth`, `none` when
uninitialized).  When `st` is `none`, reading `.authorize` off `undefined`
throws a synchronous `TypeError` before any request is issued; otherwise the
call forwards the defaulted parameters to the stored instance. -/
def authorizeSubscription (st : Option Authorizer) (o : SubOptions) (now : Int)
    (outcome : FetchOutcome) : Except JsError AuthorizeRun :=
  match st with
  | none => Except.error (JsError.typeError "exoquicAuth is undefined")
  | some a => Except.ok (authorize a (applyDefaults o now) outcome)

/-- One operation against the module-level state: a call to
`initSubscriptionAuthorizer`, or a call to `authorizeSubscription` (with its
invocation-time clock and the network oracle for that call). -/
inductive ModuleOp where
  | init (o : InitOptions)
  | authSub (o : SubOptions) (now : Int) (outcome : FetchOutcome)
deriving DecidableEq, Repr

/-- Effect of one operation on the module variable `exoquicAuth`:
`initSubscriptionAuthorizer` assigns a freshly constructed instance (were the
constructor to throw, the assignment would not happen); `authorizeSubscription`
only reads the variable. -/
def stepState (st : Option Authorizer) : ModuleOp → Option Authorizer
  | ModuleOp.init o =>
    match initAuthorizer o with
    | Except.ok a => some a
    | Except.error _ => st
  | ModuleOp.authSub _ _ _ => st

/-- The module state after a sequence of operations, starting from state `st`. -/
def runOpsFrom (st : Option Authorizer) (ops : List ModuleOp) : Option Authorizer :=
  ops.foldl stepState st

/-- The module state after a sequence of operations from process start
(`let exoquicAuth;` — uninitialized, src/src/index.js line 1). -/
def runOps (ops : List ModuleOp) : Option Authorizer :=
  runOpsFrom none ops

/-- The options of the last `init` operation in the sequence, if any. -/
def lastInitOpts : List ModuleOp → Option InitOptions
  | [] => none
  | ModuleOp.init o :: rest => some ((lastInitOpts rest).getD o)
  | ModuleOp.authSub _ _ _ :: rest => lastInitOpts rest

end Exoquic

namespace Exoquic

/-- C1: For every Authorizer (any `apiKey`, any `serverUrl`), if the HTTP
response has an ok status and body text `T`, then `authorize` resolves to
exactly `T`, verbatim — no JSON parsing, no field extraction. -/
theorem authorize_ok_returns_body_verbatim (a : Authorizer) (p : AuthorizeParams)
    (status : Nat) (T : String) (h : responseOk status = true) :
    (authorize a p (FetchOutcome.response status T)).result = Except.ok T := by
  simp [authorize, tryBlock, h]

/-- Witness for C1 at a concrete input: status 200 is ok, and a run returning
body "tok" resolves to "tok". -/
theorem authorize_ok_returns_body_verbatim_witness :
    responseOk 200 = true ∧
      (authorize { apiKey := "k", serverUrl := "https://test.exoquic.com" }
        { topic := some "t", channel := none, subscriptionId := none,
          resetFrom := none, expiresAt := none }
        (FetchOutcome.response 200 "tok")).result = Except.ok "tok" :=
  ⟨by decide,
   authorize_ok_returns_body_verbatim _ _ 200 "tok" (by decide)⟩

/-- C2: Every invocation of `authorize` issues a single request with method
POST, URL `serverUrl ++ "/authorize-subscription"`, exactly the two headers
`Content-Type: application/json` and `x-api-key: <apiKey>`, and a body whose
parsed JSON equals the supplied parameter object: looking up each key yields
exactly the supplied field (so an omitted field is absent from the body), and
the body is precisely the `JSON.stringify` serialization. -/
theorem authorize_request_shape (a : Authorizer) (p : AuthorizeParams)
    (outcome : FetchOutcome) :
    ((authorize a p outcome).req.method = "POST" ∧
      (authorize a p outcome).req.url = a.serverUrl ++ "/authorize-subscription" ∧
      (authorize a p outcome).req.headers =
        [("Content-Type", "application/json"), ("x-api-key", a.apiKey)] ∧
      (authorize a p outcome).req.body = serializeBody p) ∧
    ((authorize a p outcome).req.body.lookup "topic" = p.topic.map Json.str ∧
      (authorize a p outcome).req.body.lookup "channel" = p.channel.map Json.str ∧
      (authorize a p outcome).req.body.lookup "subscriptionId" =
        p.subscriptionId.map Json.str ∧
      (authorize a p outcome).req.body.lookup "resetFrom" = p.resetFrom.map Json.str ∧
      (authorize a p outcome).req.body.lookup "expiresAt" = p.expiresAt.map Json.num) := by
  refine ⟨⟨rfl, rfl, rfl, rfl⟩, ?_, ?_, ?_, ?_, ?_⟩ <;>
    rcases p with ⟨t, c, s, r, e⟩ <;>
    cases t <;> cases c <;> cases s <;> cases r <;> cases e <;>
    simp [authorize, buildRequest, serializeBody, List.lookup]

/-- C3: For every response with a non-ok status `S` and body text `B`,
`authorize` rejects with an `ExoquicError` whose `statusCode` is `S` and whose
`message` is `"Failed to authorize subscription: " ++ B`. -/
theorem authorize_non_ok_rejects_with_status (a : Authorizer) (p : AuthorizeParams)
    (S : Nat) (B : String) (h : responseOk S = false) :
    (authorize a p (FetchOutcome.response S B)).result =
      Except.error
        { message := "Failed to authorize subscription: " ++ B, statusCode := S } := by
  simp [authorize, tryBlock, catchBlock, h]

/-- Witness for C3 at a concrete input: status 401 is not ok, and the run
rejects with statusCode 401 and the prefixed body text. -/
theorem authorize_non_ok_rejects_with_status_witness :
    responseOk 401 = false ∧
      (authorize { apiKey := "k", serverUrl := "https://test.exoquic.com" }
        { topic := some "t", channel := none, subscriptionId := none,
          resetFrom := none, expiresAt := none }
        (FetchOutcome.response 401 "Invalid API key")).result =
      Except.error
        { message := "Failed to authorize subscription: Invalid API key"
          statusCode := 401 } :=
  ⟨by decide,
   authorize_non_ok_rejects_with_status _ _ 401 "Invalid API key" (by decide)⟩

/-- C4: For every transport-level exception with message `M`, `authorize`
rejects with an `ExoquicError` whose `statusCode` is exactly 500 and whose
`message` is `"Failed to authorize subscription: " ++ M`; and the `catch`
block passes every `ExoquicError` through unchanged (a classified error from a
non-ok response is never re-wrapped with statusCode 500). -/
theorem authorize_transport_error_wrapped_500 :
    (∀ (a : Authorizer) (p : AuthorizeParams) (M : String),
      (authorize a p (FetchOutcome.fetchThrow M)).result =
        Except.error
          { message := "Failed to authorize subscription: " ++ M
            statusCode := 500 }) ∧
    (∀ e : ExoquicError, catchBlock (Thrown.exoquic e) = e) := by
  constructor
  · intro a p M
    simp [authorize, tryBlock, catchBlock]
  · intro e
    rfl

/-- C5: When `authorizeSubscription` is called with `resetFrom` and/or
`expiresAt` omitted, the parameter object it forwards to the stored instance
has `resetFrom = "earliest"` and `expiresAt = now + 120`, where `now` is the
unix-seconds clock read at that invocation (the destructuring defaults are
evaluated afresh on every call, not once at module load), and the call indeed
forwards exactly the defaulted object to the stored Authorizer. -/
theorem authorizeSubscription_fresh_defaults (o : SubOptions) (now : Int)
    (h1 : o.resetFrom = none) (h2 : o.expiresAt = none) :
    (applyDefaults o now).resetFrom = some "earliest" ∧
    (applyDefaults o now).expiresAt = some (now + 120) ∧
    ∀ (a : Authorizer) (outcome : FetchOutcome),
      authorizeSubscription (some a) o now outcome =
        Except.ok (authorize a (applyDefaults o now) outcome) := by
  refine ⟨?_, ?_, fun a outcome => rfl⟩ <;> simp [applyDefaults, h1, h2]

/-- Witness for C5 at a concrete input: options omitting `resetFrom` and
`expiresAt`, invoked when the clock reads 1000. -/
theorem authorizeSubscription_fresh_defaults_witness :
    (SubOptions.mk (some "t") none none none none).resetFrom = none ∧
    (SubOptions.mk (some "t") none none none none).expiresAt = none ∧
    (applyDefaults (SubOptions.mk (some "t") none none none none) 1000).resetFrom =
      some "earliest" ∧
    (applyDefaults (SubOptions.mk (some "t") none none none none) 1000).expiresAt =
      some 1120 ∧
    ∀ (a : Authorizer) (outcome : FetchOutcome),
      authorizeSubscription (some a) (SubOptions.mk (some "t") none none none none)
          1000 outcome =
        Except.ok (authorize a
          (applyDefaults (SubOptions.mk (some "t") none none none none) 1000) outcome) :=
  ⟨rfl, rfl,
   authorizeSubscription_fresh_defaults (SubOptions.mk (some "t") none none none none)
     1000 rfl rfl⟩

/-- C6 (code bug): constructing an `ExoquicSubscriptionAuthorizer` directly
with the `serverUrl` option omitted does NOT succeed with
`serverUrl = "https://dev.exoquic.com"`: the constructor default references
the undeclared identifier `defaultEnvironment`, so the construction throws a
`ReferenceError`.  By contrast, the `initSubscriptionAuthorizer` path (which
always passes a resolved `serverUrl`) produces exactly the intended
`https://dev.exoquic.com` instance under the default environment, which is
what the repository's own test suite and type declarations expect of the bare
constructor as well. -/
theorem mkAuthorizer_without_serverUrl_throws :
    mkAuthorizer "k" none =
      Except.error (JsError.referenceError "defaultEnvironment") ∧
    initAuthorizer { apiKey := "k", env := none, serverUrl := none } =
      Except.ok { apiKey := "k", serverUrl := "https://dev.exoquic.com" } := by
  exact ⟨rfl, by decide⟩

/-- C7 counterexample: `initSubscriptionAuthorizer({apiKey: "k"})` followed by
`authorizeSubscription({topic: "t"})` does NOT behave identically to
constructing an `ExoquicSubscriptionAuthorizer` directly with apiKey "k" and
no `serverUrl`: the direct construction throws a `ReferenceError` (so no
authorize call can ever happen on that path), while the init path succeeds
and performs the exchange. -/
theorem init_path_differs_from_bare_constructor :
    mkAuthorizer "k" none =
      Except.error (JsError.referenceError "defaultEnvironment") ∧
    authorizeSubscription
        (runOps [ModuleOp.init { apiKey := "k", env := none, serverUrl := none }])
        (SubOptions.mk (some "t") none none none none) 1000
        (FetchOutcome.response 200 "tok") =
      Except.ok (authorize { apiKey := "k", serverUrl := "https://dev.exoquic.com" }
        (applyDefaults (SubOptions.mk (some "t") none none none none) 1000)
        (FetchOutcome.response 200 "tok")) := by
  exact ⟨rfl, by decide⟩

/-- C7 (amended): `initSubscriptionAuthorizer({apiKey: "k"})` followed by
`authorizeSubscription({topic: "t"})` behaves identically — same request,
same result or error, for every clock value and every network outcome — to
constructing an `ExoquicSubscriptionAuthorizer` directly with apiKey "k" and
the explicit default-environment URL `https://dev.exoquic.com`, and calling
its `authorize` with the same defaulted parameters. -/
theorem init_path_matches_explicit_default_url (now : Int) (outcome : FetchOutcome) :
    ∃ a : Authorizer,
      mkAuthorizer "k" (some "https://dev.exoquic.com") = Except.ok a ∧
      authorizeSubscription
          (runOps [ModuleOp.init { apiKey := "k", env := none, serverUrl := none }])
          (SubOptions.mk (some "t") none none none none) now outcome =
        Except.ok (authorize a
          (applyDefaults (SubOptions.mk (some "t") none none none none) now) outcome) := by
  refine ⟨{ apiKey := "k", serverUrl := "https://dev.exoquic.com" }, rfl, ?_⟩
  have hurl : ("https://" ++ "dev" ++ ".exoquic.com" : String) = "https://dev.exoquic.com" := by
    decide
  show Except.ok (authorize { apiKey := "k", serverUrl := resolveInitServerUrl _ } _ _) = _
  simp [resolveInitServerUrl, hurl]

/-- Helper: running a sequence of module operations from any starting state
lands on the instance built from the last `init` in the sequence, or stays at
the starting state when the sequence contains no `init`. -/
theorem runOpsFrom_lastInit (ops : List ModuleOp) : ∀ st : Option Authorizer,
    runOpsFrom st ops =
      ((lastInitOpts ops).map (fun o => some (initAuthorizerValue o))).getD st := by
  induction ops with
  | nil => intro st; rfl
  | cons op rest ih =>
    intro st
    cases op with
    | init o =>
      show runOpsFrom (some (initAuthorizerValue o)) rest = _
      rw [ih]
      cases h : lastInitOpts rest <;> simp [lastInitOpts, h]
    | authSub o now outcome =>
      show runOpsFrom st rest = _
      rw [ih]
      rfl

/-- C8: The module-level singleton `exoquicAuth` is uninitialized at process
start; after any sequence of operations it holds exactly the instance built
by the most recent `initSubscriptionAuthorizer` call (last call wins), or
nothing if `init` was never called; each `init` overwrites any previous state
unconditionally; and `authorizeSubscription` never modifies the singleton. -/
theorem singleton_lifecycle :
    runOps [] = none ∧
    (∀ ops : List ModuleOp,
      runOps ops = (lastInitOpts ops).map initAuthorizerValue) ∧
    (∀ (o : InitOptions) (st : Option Authorizer),
      stepState st (ModuleOp.init o) = some (initAuthorizerValue o)) ∧
    (∀ (st : Option Authorizer) (o : SubOptions) (now : Int) (outcome : FetchOutcome),
      stepState st (ModuleOp.authSub o now outcome) = st) := by
  refine ⟨rfl, fun ops => ?_, fun o st => rfl, fun st o now outcome => rfl⟩
  rw [runOps, runOpsFrom_lastInit]
  cases lastInitOpts ops <;> rfl

/-- C9: `authorize` performs no local validation: for every parameter object
(including one whose required `topic` is absent) the HTTP request is still
built and issued, the settled result is entirely independent of the
parameters, and every rejection stems either from a non-ok response status
(carrying that status) or from a transport throw (carrying 500) — never from
inspecting the parameters. -/
theorem authorize_no_local_validation (a : Authorizer) (p q : AuthorizeParams)
    (outcome : FetchOutcome) :
    (authorize a p outcome).req = buildRequest a p ∧
    (authorize a p outcome).result = (authorize a q outcome).result ∧
    (∀ e : ExoquicError, (authorize a p outcome).result = Except.error e →
      (∃ S B, outcome = FetchOutcome.response S B ∧ responseOk S = false ∧
        e.statusCode = S) ∨
      (∃ M, outcome = FetchOutcome.fetchThrow M ∧ e.statusCode = 500)) := by
  refine ⟨rfl, rfl, ?_⟩
  intro e he
  cases outcome with
  | response S B =>
    left
    cases h : responseOk S with
    | true => simp [authorize, tryBlock, h] at he
    | false =>
      simp [authorize, tryBlock, catchBlock, h] at he
      exact ⟨S, B, rfl, h, by rw [← he]⟩
  | fetchThrow M =>
    right
    simp [authorize, tryBlock, catchBlock] at he
    exact ⟨M, rfl, by rw [← he]⟩

/-- Witness for C9 at a concrete input: with `topic` absent and a 400
response, the rejection is classified by the response status alone. -/
theorem authorize_no_local_validation_witness :
    (∃ S B, FetchOutcome.response 400 "bad" = FetchOutcome.response S B ∧
      responseOk S = false ∧
      (ExoquicError.mk "Failed to authorize subscription: bad" 400).statusCode = S) ∨
    (∃ M, FetchOutcome.response 400 "bad" = FetchOutcome.fetchThrow M ∧
      (ExoquicError.mk "Failed to authorize subscription: bad" 400).statusCode = 500) :=
  (authorize_no_local_validation { apiKey := "k", serverUrl := "u" }
    (AuthorizeParams.mk none none none none none)
    (AuthorizeParams.mk (some "t") none none none none)
    (FetchOutcome.response 400 "bad")).2.2
    (ExoquicError.mk "Failed to authorize subscription: bad" 400) (by decide)

/-- C10: Calling `authorizeSubscription` before any `initSubscriptionAuthorizer`
call fails synchronously with an ordinary `TypeError` (property access on the
undefined singleton) — a `JsError`, not an `ExoquicError` carrying a
`statusCode` — and no run (hence no outbound HTTP request) is produced,
whatever the parameters, clock, or network would have done. -/
theorem authorizeSubscription_uninitialized_typeError (o : SubOptions) (now : Int)
    (outcome : FetchOutcome) :
    authorizeSubscription none o now outcome =
      Except.error (JsError.typeError "exoquicAuth is undefined") ∧
    ∀ run : AuthorizeRun, authorizeSubscription none o now outcome ≠ Except.ok run :=
  ⟨rfl, fun _ h => Except.noConfusion h⟩

end Exoquic
